import Mathlib

/-!
Verification of the factory task-triage pipeline.

Shallow embedding of the Python sources:
  * `src/config/safety_rules_config.py`, `src/ml/safety_rules_engine.py`
  * `src/config/due_date_config.py`, `src/ml/due_date_calculator.py`,
    `src/ml/shift_aware_due_date_calculator.py`
  * `src/config/priority_keywords.py`, `src/ml/priority_feature_extractor.py`
  * `src/database/db_manager.py` (prediction cache), `src/process_and_store_task.py`

Modelling conventions:
  * Python strings become `String`; `str.lower()` becomes `String.toLower`
    (identical on the ASCII data involved), `str.split()` becomes splitting
    on whitespace and dropping empty pieces.
  * Instants (`datetime`) become minutes since an epoch (`Nat`); the code
    only ever adds whole hours and compares/replaces at minute granularity.
  * The float urgency multipliers 0.75/0.9/0.85/1.0 are represented exactly
    as integer percentages; `int(base_hours * multiplier)` becomes exact
    integer division, which agrees with CPython float truncation on every
    value in the tables.
-/

set_option maxRecDepth 10000

/-! ## Configuration tables (`src/config/safety_rules_config.py`) -/

/-- `CRITICAL_SAFETY_KEYWORDS` from `safety_rules_config.py`. -/
def CRITICAL_SAFETY_KEYWORDS : List String :=
  ["contamination", "contaminated", "mold", "bacterial",
   "allergen", "allergy", "foreign object", "glass",
   "chemical", "toxic", "poison", "pest",
   "temperature", "cold chain", "freezer", "refrigerator",
   "expired", "spoiled", "rotten",
   "recall", "shutdown", "emergency",
   "immediate", "immediately", "urgent", "asap"]

/-- `WARNING_KEYWORDS` from `safety_rules_config.py`. -/
def WARNING_KEYWORDS : List String :=
  ["clean", "sanitize", "disinfect", "wash",
   "hazard", "risk", "dangerous", "unsafe",
   "failure", "broken", "leaking",
   "inspection", "audit", "compliance"]

/-- `ALWAYS_SAFETY_CRITICAL_CATEGORIES` from `safety_rules_config.py`. -/
def ALWAYS_SAFETY_CRITICAL_CATEGORIES : List String :=
  ["Hygiene & Safety", "Quality Control"]

/-- `MINIMUM_PRIORITY_BY_CATEGORY` from `safety_rules_config.py`. -/
def MINIMUM_PRIORITY_BY_CATEGORY : List (String × String) :=
  [("Hygiene & Safety", "High"),
   ("Quality Control", "Medium"),
   ("Production", "Low"),
   ("Maintenance", "Low"),
   ("Packaging", "Low")]

/-- Python `dict.get(key, default)` over an association list of strings. -/
def dictGet (d : List (String × String)) (k df : String) : String :=
  match d.find? (fun kv => kv.1 == k) with
  | some kv => kv.2
  | none => df

/-- Python `dict.get(key, default)` with natural-number values. -/
def dictGetNat (d : List (String × Nat)) (k : String) (df : Nat) : Nat :=
  match d.find? (fun kv => kv.1 == k) with
  | some kv => kv.2
  | none => df

/-- Whitespace splitter: accumulates the current word (reversed) and emits it
at each whitespace run boundary, dropping empty pieces — the semantics of
Python `str.split()` with no arguments. Structural recursion keeps every
evaluation kernel-reducible. -/
def splitWordsAux : List Char → List Char → List String
  | [], acc => if acc.isEmpty then [] else [String.mk acc.reverse]
  | c :: cs, acc =>
    if c.isWhitespace then
      if acc.isEmpty then splitWordsAux cs []
      else String.mk acc.reverse :: splitWordsAux cs []
    else splitWordsAux cs (c :: acc)

/-- `text.lower().split()`: case-fold each character, split on whitespace
runs, drop empty pieces. -/
def pywords (s : String) : List String :=
  splitWordsAux (s.data.map Char.toLower) []

/-! ## Safety rules engine (`src/ml/safety_rules_engine.py`) -/

/-- Return value of `SafetyRulesEngine.check_safety_keywords`. -/
structure KeywordScan where
  has_critical : Bool
  critical_found : List String
  warning_count : Nat
deriving Repr, DecidableEq

/-- `SafetyRulesEngine.check_safety_keywords`: one pass over the words,
appending to `critical_found` on a critical match and (elif) counting a
warning match otherwise. -/
def check_safety_keywords (task_description : String) : KeywordScan :=
  let words := pywords task_description
  let critical_found := words.filter (fun w => CRITICAL_SAFETY_KEYWORDS.contains w)
  let warning_found :=
    words.filter (fun w => !CRITICAL_SAFETY_KEYWORDS.contains w && WARNING_KEYWORDS.contains w)
  { has_critical := !critical_found.isEmpty
    critical_found := critical_found
    warning_count := warning_found.length }

/-- The result dictionary built by `SafetyRulesEngine.apply_safety_rules`. -/
structure SafetyResult where
  final_priority : String
  ai_priority : String
  was_overridden : Bool
  override_reason : Option String
  audit_level : String
  critical_keywords : List String
  warning_count : Nat
deriving Repr, DecidableEq

/-- `priority_order = {'Low': 0, 'Medium': 1, 'High': 2}` with `.get(p, 0)`. -/
def priority_order (p : String) : Nat :=
  dictGetNat [("Low", 0), ("Medium", 1), ("High", 2)] p 0

/-- `SafetyRulesEngine.apply_safety_rules`: builds the initial result, then
applies the three sequential override rules exactly as in the source. -/
def apply_safety_rules (task_description category ai_priority : String) : SafetyResult :=
  let scan := check_safety_keywords task_description
  let result0 : SafetyResult :=
    { final_priority := ai_priority
      ai_priority := ai_priority
      was_overridden := false
      override_reason := none
      audit_level := "INFO"
      critical_keywords := scan.critical_found
      warning_count := scan.warning_count }
  -- Rule 1: Category-based minimum priority
  let min_priority := dictGet MINIMUM_PRIORITY_BY_CATEGORY category "Low"
  let result1 :=
    if priority_order ai_priority < priority_order min_priority then
      { result0 with
        final_priority := min_priority
        was_overridden := true
        override_reason := some ("Category \x27" ++ category ++ "\x27 minimum is " ++ min_priority)
        audit_level := "WARNING" }
    else result0
  -- Rule 2: Critical safety keywords always = HIGH
  let result2 :=
    if scan.has_critical && result1.final_priority != "High" then
      { result1 with
        final_priority := "High"
        was_overridden := true
        override_reason :=
          some ("Critical keywords detected: " ++ String.intercalate ", " scan.critical_found)
        audit_level := "CRITICAL" }
    else result1
  -- Rule 3: Hygiene & Safety category always at least HIGH
  let result3 :=
    if ALWAYS_SAFETY_CRITICAL_CATEGORIES.contains category && result2.final_priority != "High" then
      { result2 with
        final_priority := "High"
        was_overridden := true
        override_reason := some ("Category \x27" ++ category ++ "\x27 is safety-critical")
        audit_level := "WARNING" }
    else result2
  result3

/-- The category floor looked up by rule 1 (`min_priority` in the source). -/
def floor_priority (category : String) : String :=
  dictGet MINIMUM_PRIORITY_BY_CATEGORY category "Low"

/-- The final priority after rule 1 (category floor) has been applied. -/
def priority_after_floor (category ai_priority : String) : String :=
  if priority_order ai_priority < priority_order (floor_priority category) then
    floor_priority category
  else ai_priority

/-- Condition under which rule 2 (critical-keyword override) fires in the
source: some critical keyword matched and the rule-1 result is not High. -/
def critical_override_fires (t c p : String) : Bool :=
  (check_safety_keywords t).has_critical && priority_after_floor c p != "High"

/-! ## Helper lemmas about the safety rules engine -/

lemma priority_order_le_two (q : String) : priority_order q ≤ 2 := by
  unfold priority_order dictGetNat
  rcases hf : List.find? (fun kv => kv.1 == q) [("Low", 0), ("Medium", 1), ("High", 2)] with _ | ⟨k, v⟩
  · simp [hf]
  · have hm := List.mem_of_find?_eq_some hf
    simp only [List.mem_cons, List.not_mem_nil, or_false] at hm
    rcases hm with h | h | h <;> simp [hf, h]

/-- The final priority of `apply_safety_rules`, characterised as the
three-stage cascade over plain priority strings. -/
lemma apply_safety_rules_final (t c p : String) :
    (apply_safety_rules t c p).final_priority =
      (let q1 := priority_after_floor c p
       let q2 := if (check_safety_keywords t).has_critical && q1 != "High" then "High" else q1
       if ALWAYS_SAFETY_CRITICAL_CATEGORIES.contains c && q2 != "High" then "High" else q2) := by
  simp only [apply_safety_rules, priority_after_floor, floor_priority]
  split_ifs <;> simp_all

/-- No rule of `apply_safety_rules` touches the matched-keyword list. -/
lemma apply_safety_rules_critical_keywords (t c p : String) :
    (apply_safety_rules t c p).critical_keywords = (check_safety_keywords t).critical_found := by
  simp only [apply_safety_rules]
  split_ifs <;> rfl

lemma has_critical_of_mem (t w : String) (hw : w ∈ pywords t)
    (hmem : w ∈ CRITICAL_SAFETY_KEYWORDS) :
    (check_safety_keywords t).has_critical = true := by
  have hf : w ∈ (pywords t).filter (fun w => CRITICAL_SAFETY_KEYWORDS.contains w) := by
    refine List.mem_filter.mpr ⟨hw, ?_⟩
    simpa using hmem
  simp only [check_safety_keywords, Bool.not_eq_true']
  rw [List.isEmpty_eq_false]
  exact List.ne_nil_of_mem hf

/-! ## Claim theorems for the safety rules engine -/

/-- C1: every task text containing (as a whitespace token of its case-folded
form, the matching discipline of `check_safety_keywords`) a member of the
critical safety keyword set makes `apply_safety_rules` return final priority
High with a non-empty matched-keyword list, for every category and candidate
priority; and on the concrete scenario text "Mold detected in fermentation
tank" with category Quality Control and candidate Low it returns final High,
overridden true, audit level CRITICAL, and "mold" among the matched
keywords. -/
theorem c1_critical_keywords_force_high (t c p : String)
    (h : ∃ w ∈ pywords t, w ∈ CRITICAL_SAFETY_KEYWORDS) :
    (apply_safety_rules t c p).final_priority = "High" ∧
    (apply_safety_rules t c p).critical_keywords ≠ [] ∧
    (apply_safety_rules "Mold detected in fermentation tank" "Quality Control" "Low").final_priority = "High" ∧
    (apply_safety_rules "Mold detected in fermentation tank" "Quality Control" "Low").was_overridden = true ∧
    (apply_safety_rules "Mold detected in fermentation tank" "Quality Control" "Low").audit_level = "CRITICAL" ∧
    "mold" ∈ (apply_safety_rules "Mold detected in fermentation tank" "Quality Control" "Low").critical_keywords := by
  obtain ⟨w, hw, hmem⟩ := h
  have hc := has_critical_of_mem t w hw hmem
  refine ⟨?_, ?_, by decide, by decide, by decide, by decide⟩
  · simp only [apply_safety_rules, hc]
    split_ifs <;> simp_all
  · rw [apply_safety_rules_critical_keywords]
    have hf : w ∈ (check_safety_keywords t).critical_found := by
      simp only [check_safety_keywords]
      refine List.mem_filter.mpr ⟨hw, ?_⟩
      simpa using hmem
    exact List.ne_nil_of_mem hf

/-- C1 witness: the scenario text itself contains the critical keyword
"mold", and the theorem applies to it. -/
theorem c1_witness :
    (∃ w ∈ pywords "Mold detected in fermentation tank", w ∈ CRITICAL_SAFETY_KEYWORDS) ∧
    (apply_safety_rules "Mold detected in fermentation tank" "Quality Control" "Low").final_priority = "High" := by
  refine ⟨by decide, ?_⟩
  exact (c1_critical_keywords_force_high "Mold detected in fermentation tank" "Quality Control"
    "Low" (by decide)).1

/-- C2: the audit level of `apply_safety_rules` is CRITICAL exactly when the
critical-keyword override fired (some critical keyword matched and the
priority after the category-floor rule was not already High); and whenever
that override fired, the always-safety-critical-category rule leaves the
CRITICAL audit level and the keyword-listing override reason in place — the
final result still carries priority High, the critical reason, and audit
level CRITICAL. -/
theorem c2_audit_critical_iff_keyword_override (t c p : String) :
    ((apply_safety_rules t c p).audit_level = "CRITICAL" ↔
      critical_override_fires t c p = true) ∧
    (critical_override_fires t c p = true →
      (apply_safety_rules t c p).final_priority = "High" ∧
      (apply_safety_rules t c p).override_reason =
        some ("Critical keywords detected: " ++
          String.intercalate ", " (check_safety_keywords t).critical_found) ∧
      (apply_safety_rules t c p).audit_level = "CRITICAL") := by
  simp only [apply_safety_rules, critical_override_fires, priority_after_floor, floor_priority]
  split_ifs <;> simp_all

/-- C2 witness: on a text with a critical keyword and a category that is also
always-safety-critical, the override fires and the audit level is CRITICAL. -/
theorem c2_witness :
    (apply_safety_rules "mold found" "Quality Control" "Low").audit_level = "CRITICAL" ∧
    (apply_safety_rules "mold found" "Quality Control" "Low").final_priority = "High" :=
  ⟨((c2_audit_critical_iff_keyword_override "mold found" "Quality Control" "Low").1).mpr
      (by decide),
   ((c2_audit_critical_iff_keyword_override "mold found" "Quality Control" "Low").2
      (by decide)).1⟩

/-- C5 counterexample: category Quality Control has configured minimum
Medium and candidate Low is strictly below it, yet `apply_safety_rules` on
the empty text returns final priority High (the always-safety-critical
category rule raised it past the floor), not the floor Medium that the claim
demands. -/
theorem c5_counterexample :
    floor_priority "Quality Control" = "Medium" ∧
    priority_order "Low" < priority_order "Medium" ∧
    (apply_safety_rules "" "Quality Control" "Low").final_priority ≠ "Medium" := by decide

/-- C5 amended: for every category with configured minimum M and candidate
strictly below M, `apply_safety_rules` returns a final priority at least M
(later rules may raise it further, to High) and overridden true. -/
theorem c5_floor_raises_to_at_least_minimum (t c p M : String)
    (hM : floor_priority c = M)
    (hlt : priority_order p < priority_order M) :
    priority_order M ≤ priority_order (apply_safety_rules t c p).final_priority ∧
    (apply_safety_rules t c p).was_overridden = true := by
  have hle := priority_order_le_two M
  have h2 : priority_order "High" = 2 := rfl
  constructor
  · rw [apply_safety_rules_final]
    simp only [priority_after_floor, hM]
    split_ifs <;> simp_all
  · simp only [apply_safety_rules, floor_priority] at *
    rw [hM]
    split_ifs <;> simp_all

/-- C5 witness: Quality Control with candidate Low — the floor Medium is
respected (the final priority is at least Medium) and the result is marked
overridden. -/
theorem c5_witness :
    priority_order "Medium" ≤
      priority_order (apply_safety_rules "" "Quality Control" "Low").final_priority ∧
    (apply_safety_rules "" "Quality Control" "Low").was_overridden = true :=
  c5_floor_raises_to_at_least_minimum "" "Quality Control" "Low" "Medium"
    (by decide) (by decide)

/-- C6: `apply_safety_rules` is idempotent in its priority argument — feeding
the final priority back in as the candidate yields the same final
priority. -/
theorem c6_evaluate_idempotent (t c p : String) :
    (apply_safety_rules t c (apply_safety_rules t c p).final_priority).final_priority
      = (apply_safety_rules t c p).final_priority := by
  have h2 : priority_order "High" = 2 := rfl
  have hfl := priority_order_le_two (floor_priority c)
  simp only [apply_safety_rules_final]
  unfold priority_after_floor
  split_ifs <;> simp_all

/-! ## Due-date configuration (`src/config/due_date_config.py`) -/

/-- `PRIORITY_HOURS` from `due_date_config.py`. -/
def PRIORITY_HOURS : List (String × Nat) :=
  [("High", 2), ("Medium", 8), ("Low", 24)]

/-- `SHIFTS` from `due_date_config.py`: name ↦ (start hour, end hour). -/
def SHIFTS : List (String × Nat × Nat) :=
  [("Morning", (6, 14)), ("Afternoon", (14, 22)), ("Night", (22, 30))]

/-- `CATEGORY_URGENCY` from `due_date_config.py`. The float multipliers
0.75 / 0.9 / 1.0 / 0.85 / 1.0 are held as exact integer percentages;
`int(base_hours * multiplier)` is then exact division by 100, which agrees
with CPython float truncation on every (base, multiplier) pair of the
tables. -/
def CATEGORY_URGENCY : List (String × Nat) :=
  [("Hygiene & Safety", 75),
   ("Quality Control", 90),
   ("Production", 100),
   ("Maintenance", 85),
   ("Packaging", 100)]

/-! ## Due-date calculators (`src/ml/due_date_calculator.py`,
`src/ml/shift_aware_due_date_calculator.py`)

Instants are minutes since an arbitrary epoch of midnight. -/

/-- `datetime.hour` of an instant in minutes. -/
def hourOf (t : Nat) : Nat := t / 60 % 24

/-- `current_time.replace(hour=h, minute=0, second=0, microsecond=0)`. -/
def replaceHour (t h : Nat) : Nat := t / 1440 * 1440 + h * 60

/-- `DueDateCalculator.get_current_shift`. -/
def get_current_shift (current_time : Nat) : String :=
  let hour := hourOf current_time
  if 6 ≤ hour ∧ hour < 14 then "Morning"
  else if 14 ≤ hour ∧ hour < 22 then "Afternoon"
  else "Night"

/-- The dictionary returned by `DueDateCalculator.calculate_due_date`
(keys that matter to the spec; the UI-only colour coding is omitted). -/
structure DueInfo where
  due_datetime : Nat
  hours_available : Nat
  shift : String
  explanation : String
  priority : String
  category : String
  created_at : Nat
deriving Repr, DecidableEq

/-- `DueDateCalculator.calculate_due_date`. The speedup percentage in the
explanation is `100 - multiplier` exactly; CPython prints 9 rather than 10
for the 0.9 multiplier because of binary-float rounding in
`int((1 - 0.9) * 100)` — no theorem below inspects that percentage. -/
def calculate_due_date (priority category : String) (current_time : Nat) : DueInfo :=
  let base_hours := dictGetNat PRIORITY_HOURS priority 8
  let urgency_multiplier := dictGetNat CATEGORY_URGENCY category 100
  let hours_raw := base_hours * urgency_multiplier / 100
  -- Ensure minimum 1 hour
  let hours_available := max 1 hours_raw
  let due_datetime := current_time + hours_available * 60
  let current_shift := get_current_shift current_time
  let explanation := priority ++ " priority task (base: " ++ toString base_hours ++ "h)"
  let explanation :=
    if urgency_multiplier < 100 then
      explanation ++ " → " ++ toString (100 - urgency_multiplier) ++ "% faster for " ++ category
    else explanation
  let explanation := explanation ++ " → " ++ toString hours_available ++ " hours available"
  { due_datetime := due_datetime
    hours_available := hours_available
    shift := current_shift
    explanation := explanation
    priority := priority
    category := category
    created_at := current_time }

/-- `self.shifts[shift]['end']` — only reached with shift names present in
`SHIFTS`, so the default is immaterial. -/
def shiftsEndHour (shift : String) : Nat :=
  match SHIFTS.find? (fun kv => kv.1 == shift) with
  | some kv => kv.2.2
  | none => 0

/-- `ShiftAwareDueDateCalculator.calculate_due_date_shift_aware`. -/
def calculate_due_date_shift_aware (priority category : String) (current_time : Nat)
    (respect_shift_boundary : Bool) : DueInfo :=
  let due_info := calculate_due_date priority category current_time
  if priority == "High" && category == "Hygiene & Safety" && respect_shift_boundary then
    let current_shift := get_current_shift current_time
    let shift_end :=
      if current_shift == "Night" then
        -- Night shift ends at 06:00 next day
        let se := replaceHour current_time 6
        if se ≤ current_time then se + 1440 else se
      else
        replaceHour current_time (shiftsEndHour current_shift)
    if due_info.due_datetime > shift_end then
      { due_info with
        due_datetime := shift_end
        hours_available := (shift_end - current_time) / 60
        explanation := due_info.explanation ++ " [CAPPED TO SHIFT END]" }
    else due_info
  else due_info

/-- Shift-end resolution as worded in the claim: Night ends 06:00 the next
calendar day when the hour is ≥ 22 and 06:00 the same day when the hour is
< 6; Morning ends 14:00 and Afternoon 22:00 the same day. -/
def specShiftEnd (now : Nat) : Nat :=
  if 22 ≤ hourOf now then (now / 1440 + 1) * 1440 + 6 * 60
  else if hourOf now < 6 then now / 1440 * 1440 + 6 * 60
  else if hourOf now < 14 then now / 1440 * 1440 + 14 * 60
  else now / 1440 * 1440 + 22 * 60

/-- The capped-indicator appended by the shift-aware calculator. -/
def cappedMarker : String := " [CAPPED TO SHIFT END]"

/-- Whether a result carries the capped-indicator (the source signals
capping only through this suffix of the explanation). -/
def isCapped (info : DueInfo) : Bool :=
  cappedMarker.data.isSuffixOf info.explanation.data

/-! ## Helper lemmas about the due-date calculators -/

lemma specShiftEnd_ge (now : Nat) : now ≤ specShiftEnd now := by
  unfold specShiftEnd hourOf
  split_ifs <;> omega

lemma base_due_HS (now : Nat) :
    (calculate_due_date "High" "Hygiene & Safety" now).due_datetime = now + 60 := rfl

lemma shiftsEndHour_Morning : shiftsEndHour "Morning" = 14 := rfl

lemma shiftsEndHour_Afternoon : shiftsEndHour "Afternoon" = 22 := rfl

/-- The shift-end instant computed inside
`calculate_due_date_shift_aware` equals the claim-worded resolution
`specShiftEnd`. -/
lemma code_shift_end_eq (now : Nat) :
    (if get_current_shift now == "Night" then
       (if replaceHour now 6 ≤ now then replaceHour now 6 + 1440 else replaceHour now 6)
     else replaceHour now (shiftsEndHour (get_current_shift now))) = specShiftEnd now := by
  by_cases hm : 6 ≤ hourOf now ∧ hourOf now < 14
  · have h1 : get_current_shift now = "Morning" := by simp [get_current_shift, hm]
    rw [h1, show (("Morning" : String) == "Night") = false from rfl, shiftsEndHour_Morning]
    unfold hourOf at hm
    unfold specShiftEnd replaceHour hourOf
    simp only [Bool.false_eq_true, if_false]
    split_ifs <;> omega
  · by_cases ha : 14 ≤ hourOf now ∧ hourOf now < 22
    · have h1 : get_current_shift now = "Afternoon" := by simp [get_current_shift, hm, ha]
      rw [h1, show (("Afternoon" : String) == "Night") = false from rfl, shiftsEndHour_Afternoon]
      unfold hourOf at hm ha
      unfold specShiftEnd replaceHour hourOf
      simp only [Bool.false_eq_true, if_false]
      split_ifs <;> omega
    · have h1 : get_current_shift now = "Night" := by simp [get_current_shift, hm, ha]
      rw [h1, show (("Night" : String) == "Night") = true from rfl]
      have hh : hourOf now < 6 ∨ 22 ≤ hourOf now := by
        unfold hourOf at hm ha ⊢; omega
      unfold hourOf at hm ha hh
      unfold specShiftEnd replaceHour hourOf
      simp only [if_true]
      split_ifs <;> omega

lemma shift_aware_due_le (now : Nat) :
    (calculate_due_date_shift_aware "High" "Hygiene & Safety" now true).due_datetime ≤
      specShiftEnd now := by
  have he := code_shift_end_eq now
  simp only [calculate_due_date_shift_aware]
  rw [if_pos (show ("High" == "High" && "Hygiene & Safety" == "Hygiene & Safety" && true) = true from rfl)]
  rw [he]
  split_ifs with h
  · exact le_refl _
  · rw [base_due_HS] at h ⊢
    omega

/-- Any combination that is not (High, Hygiene & Safety, boundary respected)
passes through the base calculator unchanged. -/
lemma shift_aware_passthrough (p c : String) (now : Nat) (b : Bool)
    (h : ¬(p = "High" ∧ c = "Hygiene & Safety" ∧ b = true)) :
    calculate_due_date_shift_aware p c now b = calculate_due_date p c now := by
  simp only [calculate_due_date_shift_aware]
  rw [if_neg]
  simp only [Bool.and_eq_true, beq_iff_eq]
  tauto

lemma base_hours_ge_one (p c : String) (now : Nat) :
    1 ≤ (calculate_due_date p c now).hours_available := by
  simp only [calculate_due_date]
  exact le_max_left _ _

lemma base_due_ge (p c : String) (now : Nat) :
    now ≤ (calculate_due_date p c now).due_datetime := by
  simp only [calculate_due_date]
  omega

/-- On the High + Hygiene & Safety path the shift-aware result either equals
the base result (no cap) or is capped to the shift end, with the recomputed
hour count and a base due instant past the shift end. -/
lemma shift_aware_HS_cases (now : Nat) :
    calculate_due_date_shift_aware "High" "Hygiene & Safety" now true =
      calculate_due_date "High" "Hygiene & Safety" now ∨
    ((calculate_due_date_shift_aware "High" "Hygiene & Safety" now true).due_datetime =
        specShiftEnd now ∧
      (calculate_due_date_shift_aware "High" "Hygiene & Safety" now true).hours_available =
        (specShiftEnd now - now) / 60 ∧
      (calculate_due_date "High" "Hygiene & Safety" now).due_datetime > specShiftEnd now) := by
  have he := code_shift_end_eq now
  simp only [calculate_due_date_shift_aware]
  rw [if_pos (show ("High" == "High" && "Hygiene & Safety" == "Hygiene & Safety" && true) = true from rfl)]
  rw [he]
  split_ifs with hcap
  · right
    exact ⟨rfl, rfl, hcap⟩
  · left
    rfl

lemma shift_aware_due_ge (p c : String) (now : Nat) (b : Bool) :
    now ≤ (calculate_due_date_shift_aware p c now b).due_datetime := by
  by_cases h : p = "High" ∧ c = "Hygiene & Safety" ∧ b = true
  · obtain ⟨hp, hc, hb⟩ := h
    subst hp; subst hc; subst hb
    rcases shift_aware_HS_cases now with hsame | ⟨hdue, _, _⟩
    · rw [hsame]
      exact base_due_ge _ _ _
    · rw [hdue]
      exact specShiftEnd_ge now
  · rw [shift_aware_passthrough p c now b h]
    exact base_due_ge _ _ _

lemma shift_aware_hours_of_due_eq (p c : String) (now : Nat) (b : Bool)
    (heq : (calculate_due_date_shift_aware p c now b).due_datetime =
      (calculate_due_date p c now).due_datetime) :
    1 ≤ (calculate_due_date_shift_aware p c now b).hours_available := by
  by_cases h : p = "High" ∧ c = "Hygiene & Safety" ∧ b = true
  · obtain ⟨hp, hc, hb⟩ := h
    subst hp; subst hc; subst hb
    rcases shift_aware_HS_cases now with hsame | ⟨hdue, _, hgt⟩
    · rw [hsame]
      exact base_hours_ge_one _ _ _
    · rw [hdue] at heq
      omega
  · rw [shift_aware_passthrough p c now b h]
    exact base_hours_ge_one _ _ _

/-! ## Claim theorems for the due-date calculators -/

/-- C3 counterexample: priority High, category Hygiene & Safety, now 13:30
(minute 810 of day 0). The base due instant 14:30 exceeds the Morning shift
end 14:00, the cap fires, and the recomputed hours available is 0 — below
the 1-hour minimum the claim asserts. -/
theorem c3_counterexample :
    (calculate_due_date_shift_aware "High" "Hygiene & Safety" 810 true).hours_available = 0 ∧
    ¬(1 ≤ (calculate_due_date_shift_aware "High" "Hygiene & Safety" 810 true).hours_available) ∧
    isCapped (calculate_due_date_shift_aware "High" "Hygiene & Safety" 810 true) = true := by
  decide

/-- C3 amended: for every priority, category and instant, both calculators
give a due instant ≥ now, and the base calculator gives hours available ≥ 1;
the shift-aware calculator also gives hours available ≥ 1 whenever the
shift-end cap did not fire (i.e. its due instant is the base one), but a
firing cap may leave fewer than 60 minutes and thus 0 hours. -/
theorem c3_due_ge_now_hours_amended (p c : String) (now : Nat) (b : Bool) :
    now ≤ (calculate_due_date p c now).due_datetime ∧
    1 ≤ (calculate_due_date p c now).hours_available ∧
    now ≤ (calculate_due_date_shift_aware p c now b).due_datetime ∧
    ((calculate_due_date_shift_aware p c now b).due_datetime =
        (calculate_due_date p c now).due_datetime →
      1 ≤ (calculate_due_date_shift_aware p c now b).hours_available) :=
  ⟨base_due_ge p c now, base_hours_ge_one p c now, shift_aware_due_ge p c now b,
   shift_aware_hours_of_due_eq p c now b⟩

/-- C3 witness: concrete uncapped instance of the amended theorem. -/
theorem c3_witness :
    1 ≤ (calculate_due_date "Low" "Production" 0).hours_available ∧
    1 ≤ (calculate_due_date_shift_aware "Low" "Production" 0 true).hours_available :=
  ⟨(c3_due_ge_now_hours_amended "Low" "Production" 0 true).2.1,
   (c3_due_ge_now_hours_amended "Low" "Production" 0 true).2.2.2 (by decide)⟩

/-- C4: for priority High and the designated safety category Hygiene &
Safety, the shift-aware calculator never returns a due instant past the end
of the shift containing now, where the shift end resolves per the claim
(Night: 06:00 next day when the hour is ≥ 22, 06:00 the same day when the
hour is < 6; Morning 14:00, Afternoon 22:00 the same day); every other
(priority, category) combination returns the base calculator result
unchanged. -/
theorem c4_shift_cap_and_passthrough (p c : String) (now : Nat) :
    (p = "High" ∧ c = "Hygiene & Safety" →
      (calculate_due_date_shift_aware p c now true).due_datetime ≤ specShiftEnd now) ∧
    (¬(p = "High" ∧ c = "Hygiene & Safety") →
      calculate_due_date_shift_aware p c now true = calculate_due_date p c now) := by
  constructor
  · rintro ⟨hp, hc⟩
    subst hp; subst hc
    exact shift_aware_due_le now
  · intro h
    exact shift_aware_passthrough p c now true (by tauto)

/-- C4 witness: a capped High + Hygiene & Safety instant stays within its
shift, and a Low + Production instant passes through unchanged. -/
theorem c4_witness :
    (calculate_due_date_shift_aware "High" "Hygiene & Safety" 810 true).due_datetime ≤
      specShiftEnd 810 ∧
    calculate_due_date_shift_aware "Low" "Production" 810 true =
      calculate_due_date "Low" "Production" 810 :=
  ⟨(c4_shift_cap_and_passthrough "High" "Hygiene & Safety" 810).1 ⟨rfl, rfl⟩,
   (c4_shift_cap_and_passthrough "Low" "Production" 810).2 (by decide)⟩

/-- C8 counterexample: at 13:00 (minute 780) the base calculator truncates
2 × 0.75 = 1.5 to 1 whole hour before any date arithmetic, so the base due
instant is 14:00 (minute 840), not the claimed 14:30 (minute 870), and the
cap never fires — the shift-aware result equals the base result and carries
no capped indicator. -/
theorem c8_counterexample :
    (calculate_due_date "High" "Hygiene & Safety" 780).due_datetime ≠ 780 + 90 ∧
    calculate_due_date_shift_aware "High" "Hygiene & Safety" 780 true =
      calculate_due_date "High" "Hygiene & Safety" 780 ∧
    isCapped (calculate_due_date_shift_aware "High" "Hygiene & Safety" 780 true) = false := by
  decide

/-- C8 amended: with priority High, category Hygiene & Safety, now 13:00,
the base hours are int(2 × 0.75) = 1, the base due instant is 14:00, which
does not exceed the Morning shift end 14:00, so no capping occurs: the
shift-aware result equals the base result with due 14:00, hours available 1,
and capped false. -/
theorem c8_one_pm_scenario :
    (calculate_due_date "High" "Hygiene & Safety" 780).hours_available = 1 ∧
    (calculate_due_date "High" "Hygiene & Safety" 780).due_datetime = 840 ∧
    calculate_due_date_shift_aware "High" "Hygiene & Safety" 780 true =
      calculate_due_date "High" "Hygiene & Safety" 780 ∧
    isCapped (calculate_due_date_shift_aware "High" "Hygiene & Safety" 780 true) = false := by
  decide

/-! ## Priority feature extraction (`src/config/priority_keywords.py`,
`src/ml/priority_feature_extractor.py`) -/

/-- `SAFETY_KEYWORDS` from `priority_keywords.py`. -/
def SAFETY_KEYWORDS : List String :=
  ["clean", "sanitize", "disinfect",
   "contamination", "contaminated",
   "urgent", "immediately", "asap",
   "dangerous", "hazard", "risk",
   "health", "food safety", "allergy",
   "temperature", "bacteria", "mold",
   "expired", "disposal",
   "fire", "emergency", "shutdown"]

/-- `CATEGORY_PRIORITY_WEIGHTS` from `priority_keywords.py`. -/
def CATEGORY_PRIORITY_WEIGHTS : List (String × Nat) :=
  [("Hygiene & Safety", 3),
   ("Quality Control", 2),
   ("Production", 1),
   ("Maintenance", 1),
   ("Packaging", 0)]

/-- `HIGH_PRIORITY_KEYWORDS` from `priority_keywords.py`. -/
def HIGH_PRIORITY_KEYWORDS : List String :=
  ["urgent", "immediately", "asap", "critical",
   "contamination", "contaminated", "dangerous",
   "emergency", "shutdown", "broken", "failed",
   "health", "safety", "allergy", "expired"]

/-- `LOW_PRIORITY_KEYWORDS` from `priority_keywords.py` (the source lists
"organize" twice; as a membership set this is immaterial). -/
def LOW_PRIORITY_KEYWORDS : List String :=
  ["organize", "organize", "schedule", "plan",
   "nice to have", "optional", "when available"]

/-- The `urgent_words` literal inside `extract_features`. -/
def urgent_words : List String :=
  ["immediately", "asap", "urgent", "critical", "emergency"]

/-- The `equipment_words` literal inside `extract_features`. -/
def equipment_words : List String :=
  ["tank", "conveyor", "mixer", "machine", "line", "motor", "pump", "valve"]

/-- The `cleaning_words` literal inside `extract_features`. -/
def cleaning_words : List String :=
  ["clean", "sanitize", "disinfect", "wash", "scrub"]

/-- The feature dictionary built by
`PriorityFeatureExtractor.extract_features`. -/
structure Features where
  category_weight : Nat
  high_priority_keywords : Nat
  low_priority_keywords : Nat
  safety_keywords : Nat
  task_length : Nat
  has_urgent_words : Nat
  equipment_count : Nat
  cleaning_count : Nat
deriving Repr, DecidableEq

/-- `PriorityFeatureExtractor.extract_features`, factored over the word list
`text.lower().split()` (the source computes `words` once and counts over
it). -/
def extract_features_words (words : List String) (category : String) : Features :=
  { category_weight := dictGetNat CATEGORY_PRIORITY_WEIGHTS category 0
    high_priority_keywords := words.countP (fun w => HIGH_PRIORITY_KEYWORDS.contains w)
    low_priority_keywords := words.countP (fun w => LOW_PRIORITY_KEYWORDS.contains w)
    safety_keywords := words.countP (fun w => SAFETY_KEYWORDS.contains w)
    task_length := words.length
    has_urgent_words := if urgent_words.any (fun w => words.contains w) then 1 else 0
    equipment_count := words.countP (fun w => equipment_words.contains w)
    cleaning_count := words.countP (fun w => cleaning_words.contains w) }

/-- `PriorityFeatureExtractor.extract_features` on raw text. -/
def extract_features (task_description category : String) : Features :=
  extract_features_words (pywords task_description) category

/-- The weighted sum and clamp of
`PriorityFeatureExtractor.calculate_priority_score`, over exact rationals
(every Python float weight 1.5/2/0.5/1 is a dyadic rational, so float and
rational arithmetic agree here). -/
def scoreOfFeatures (f : Features) : ℚ :=
  max 0 (min 10
    ((f.category_weight : ℚ) * 1.5 + (f.high_priority_keywords : ℚ) * 2
      - (f.low_priority_keywords : ℚ) * 1.5 + (f.safety_keywords : ℚ) * 1.5
      + (f.has_urgent_words : ℚ) * 2 + (f.equipment_count : ℚ) * 0.5
      + (f.cleaning_count : ℚ) * 1))

/-- `PriorityFeatureExtractor.calculate_priority_score`: returns the clamped
score together with the features. -/
def calculate_priority_score (task_description category : String) : ℚ × Features :=
  let features := extract_features task_description category
  (scoreOfFeatures features, features)

/-- The score over an explicit word list. -/
def calculate_priority_score_words (words : List String) (category : String) : ℚ :=
  scoreOfFeatures (extract_features_words words category)

/-! ## Helper lemmas about the priority scorer -/

lemma any_contains_append (ws : List String) (w : String) :
    (urgent_words.any fun u => (ws ++ [w]).contains u) =
      ((urgent_words.any fun u => ws.contains u) || urgent_words.contains w) := by
  simp [urgent_words, eq_comm, Bool.or_comm, Bool.or_assoc, Bool.or_left_comm]

lemma clamp_mono {x y : ℚ} (h : x ≤ y) : max 0 (min 10 x) ≤ max 0 (min 10 y) :=
  max_le_max (le_refl 0) (min_le_min (le_refl 10) h)

lemma ite_one_zero_nonneg (P : Prop) [Decidable P] : (0:ℚ) ≤ if P then 1 else 0 := by
  split_ifs <;> norm_num

lemma flag_le (A B : Bool) :
    (if A = true then (1:ℚ) else 0) ≤ (if (A || B) = true then 1 else 0) := by
  cases A <;> cases B <;> norm_num

/-- Appending one word from any positively weighted keyword set never
lowers the score. -/
lemma score_words_append_pos (ws : List String) (c : String) (w : String)
    (hw : w ∈ HIGH_PRIORITY_KEYWORDS ∨ w ∈ SAFETY_KEYWORDS ∨ w ∈ urgent_words ∨
      w ∈ equipment_words ∨ w ∈ cleaning_words) :
    calculate_priority_score_words ws c ≤ calculate_priority_score_words (ws ++ [w]) c := by
  have hlow : LOW_PRIORITY_KEYWORDS.contains w = false := by
    have h1 : ∀ x ∈ HIGH_PRIORITY_KEYWORDS, x ∉ LOW_PRIORITY_KEYWORDS := by decide
    have h2 : ∀ x ∈ SAFETY_KEYWORDS, x ∉ LOW_PRIORITY_KEYWORDS := by decide
    have h3 : ∀ x ∈ urgent_words, x ∉ LOW_PRIORITY_KEYWORDS := by decide
    have h4 : ∀ x ∈ equipment_words, x ∉ LOW_PRIORITY_KEYWORDS := by decide
    have h5 : ∀ x ∈ cleaning_words, x ∉ LOW_PRIORITY_KEYWORDS := by decide
    have : w ∉ LOW_PRIORITY_KEYWORDS := by
      rcases hw with h | h | h | h | h
      · exact h1 w h
      · exact h2 w h
      · exact h3 w h
      · exact h4 w h
      · exact h5 w h
    simpa using this
  unfold calculate_priority_score_words scoreOfFeatures extract_features_words
  dsimp only
  apply clamp_mono
  rw [any_contains_append]
  simp only [List.countP_append, List.countP_cons, List.countP_nil, hlow]
  push_cast
  have hfl := flag_le (urgent_words.any fun u => ws.contains u) (urgent_words.contains w)
  have e1 := ite_one_zero_nonneg (HIGH_PRIORITY_KEYWORDS.contains w = true)
  have e2 := ite_one_zero_nonneg (SAFETY_KEYWORDS.contains w = true)
  have e3 := ite_one_zero_nonneg (equipment_words.contains w = true)
  have e4 := ite_one_zero_nonneg (cleaning_words.contains w = true)
  linarith

/-- Appending one low-priority keyword never raises the score. -/
lemma score_words_append_low (ws : List String) (c : String) (w : String)
    (hw : w ∈ LOW_PRIORITY_KEYWORDS) :
    calculate_priority_score_words (ws ++ [w]) c ≤ calculate_priority_score_words ws c := by
  have h1 : HIGH_PRIORITY_KEYWORDS.contains w = false := by
    have : ∀ x ∈ LOW_PRIORITY_KEYWORDS, x ∉ HIGH_PRIORITY_KEYWORDS := by decide
    simpa using this w hw
  have h2 : SAFETY_KEYWORDS.contains w = false := by
    have : ∀ x ∈ LOW_PRIORITY_KEYWORDS, x ∉ SAFETY_KEYWORDS := by decide
    simpa using this w hw
  have h3 : urgent_words.contains w = false := by
    have : ∀ x ∈ LOW_PRIORITY_KEYWORDS, x ∉ urgent_words := by decide
    simpa using this w hw
  have h4 : equipment_words.contains w = false := by
    have : ∀ x ∈ LOW_PRIORITY_KEYWORDS, x ∉ equipment_words := by decide
    simpa using this w hw
  have h5 : cleaning_words.contains w = false := by
    have : ∀ x ∈ LOW_PRIORITY_KEYWORDS, x ∉ cleaning_words := by decide
    simpa using this w hw
  have hlowb : LOW_PRIORITY_KEYWORDS.contains w = true := by simpa using hw
  unfold calculate_priority_score_words scoreOfFeatures extract_features_words
  dsimp only
  apply clamp_mono
  rw [any_contains_append, h3]
  simp only [List.countP_append, List.countP_cons, List.countP_nil, h1, h2, h4, h5, hlowb,
    Bool.or_false, Bool.false_eq_true, if_false, if_true, Nat.add_zero, Nat.zero_add]
  push_cast
  linarith

/-- C9: the priority score is always within [0, 10]; appending one
occurrence of any positively weighted keyword (high-priority, safety,
urgent word, equipment, or cleaning) to the word list never decreases the
score; appending one low-priority keyword never increases it. -/
theorem c9_score_bounds_and_monotone (t c : String) (ws : List String) (w : String) :
    0 ≤ (calculate_priority_score t c).1 ∧ (calculate_priority_score t c).1 ≤ 10 ∧
    (w ∈ HIGH_PRIORITY_KEYWORDS ∨ w ∈ SAFETY_KEYWORDS ∨ w ∈ urgent_words ∨
        w ∈ equipment_words ∨ w ∈ cleaning_words →
      calculate_priority_score_words ws c ≤ calculate_priority_score_words (ws ++ [w]) c) ∧
    (w ∈ LOW_PRIORITY_KEYWORDS →
      calculate_priority_score_words (ws ++ [w]) c ≤ calculate_priority_score_words ws c) := by
  refine ⟨?_, ?_, score_words_append_pos ws c w, score_words_append_low ws c w⟩
  · unfold calculate_priority_score scoreOfFeatures
    exact le_max_left _ _
  · unfold calculate_priority_score scoreOfFeatures
    exact max_le (by norm_num) (min_le_left _ _)

/-- C9 witness: appending "urgent" to ["tank"] does not lower the score,
and appending "optional" does not raise it. -/
theorem c9_witness :
    calculate_priority_score_words ["tank"] "Production" ≤
      calculate_priority_score_words (["tank"] ++ ["urgent"]) "Production" ∧
    calculate_priority_score_words (["tank"] ++ ["optional"]) "Production" ≤
      calculate_priority_score_words ["tank"] "Production" :=
  ⟨(c9_score_bounds_and_monotone "" "Production" ["tank"] "urgent").2.2.1 (by decide),
   (c9_score_bounds_and_monotone "" "Production" ["tank"] "optional").2.2.2 (by decide)⟩

/-! ## Prediction cache (`src/database/schema.py`, `src/database/db_manager.py`)

A `prediction_cache` row; `task_hash` is UNIQUE, `cache_hit_count`
defaults to 0, `last_hit` is NULL until the first hit. The md5 hex digest
of the lowercased text is modelled by the lowercased text itself — a
stable injective key standing in for a hash whose collision handling the
source delegates to the store's uniqueness constraint. -/
structure CacheEntry where
  task_description : String
  predicted_category : String
  predicted_priority : String
  cache_hit_count : Nat
  last_hit : Option Nat
  created_at : Nat
deriving Repr, DecidableEq

/-- The `prediction_cache` table as a list of rows keyed by `task_hash`. -/
abbrev Cache := List (String × CacheEntry)

/-- `DatabaseManager.hash_task_description` (md5 of the lowercased text,
modelled as the lowercased text). -/
def hash_task_description (task_description : String) : String :=
  String.mk (task_description.data.map Char.toLower)

/-- `SELECT ... FROM prediction_cache WHERE task_hash = ?` under the UNIQUE
key: the first matching row, if any. -/
def findRow (db : Cache) (h : String) : Option CacheEntry :=
  (db.find? (fun row => row.1 == h)).map (fun row => row.2)

/-- `DatabaseManager.check_cache`: on a hit, bump the row's hit counter and
set `last_hit` to the current timestamp, returning the stored labels; on a
miss, return `(False, None, None)` and leave the table untouched. -/
def check_cache (db : Cache) (task_description : String) (now : Nat) :
    (Bool × Option String × Option String) × Cache :=
  let task_hash := hash_task_description task_description
  match db.find? (fun row => row.1 == task_hash) with
  | some row =>
    ((true, some row.2.predicted_category, some row.2.predicted_priority),
     db.map (fun r =>
       if r.1 == task_hash then
         (r.1, { r.2 with cache_hit_count := r.2.cache_hit_count + 1, last_hit := some now })
       else r))
  | none => ((false, none, none), db)

/-- `DatabaseManager.add_to_cache`: INSERT a fresh row; the UNIQUE
constraint on `task_hash` raises `IntegrityError` when the key exists,
which the source catches and turns into `False` with no change. -/
def add_to_cache (db : Cache) (task_description predicted_category predicted_priority : String)
    (now : Nat) : Bool × Cache :=
  let task_hash := hash_task_description task_description
  if (db.find? (fun row => row.1 == task_hash)).isSome then
    (false, db)
  else
    (true, db ++ [(task_hash,
      { task_description := task_description
        predicted_category := predicted_category
        predicted_priority := predicted_priority
        cache_hit_count := 0
        last_hit := none
        created_at := now })])

/-! ## Helper lemmas about the prediction cache -/

lemma find?_append_of_none {α : Type} (l1 l2 : List α) (p : α → Bool)
    (h : l1.find? p = none) : (l1 ++ l2).find? p = l2.find? p := by
  induction l1 with
  | nil => rfl
  | cons a l ih =>
    rcases hp : p a with _ | _
    · simp only [List.cons_append, List.find?_cons, hp] at h ⊢
      exact ih h
    · simp only [List.find?_cons, hp] at h
      exact absurd h (by simp)

lemma find?_map_key_preserving (db : Cache) (q : String → Bool)
    (f : String × CacheEntry → String × CacheEntry)
    (hf : ∀ r, (f r).1 = r.1) :
    (db.map f).find? (fun r => q r.1) = (db.find? (fun r => q r.1)).map f := by
  induction db with
  | nil => rfl
  | cons a l ih =>
    simp only [List.map_cons, List.find?_cons, hf a]
    rcases hq : q a.1 with _ | _ <;> simp [hq, ih]

/-- A fresh insert succeeds and appends the new row. -/
lemma add_to_cache_fresh (db : Cache) (t c p : String) (n : Nat)
    (h : findRow db (hash_task_description t) = none) :
    add_to_cache db t c p n =
      (true, db ++ [(hash_task_description t, ⟨t, c, p, 0, none, n⟩)]) := by
  unfold findRow at h
  unfold add_to_cache
  rcases hf : db.find? (fun row => row.1 == hash_task_description t) with _ | row
  · simp [hf]
  · rw [hf] at h
    simp at h

lemma findRow_append_fresh (db : Cache) (h : String) (e : CacheEntry)
    (hmiss : findRow db h = none) :
    findRow (db ++ [(h, e)]) h = some e := by
  unfold findRow at hmiss ⊢
  rcases hf : db.find? (fun row => row.1 == h) with _ | row
  · rw [find?_append_of_none db [(h, e)] _ hf]
    simp [List.find?]
  · rw [hf] at hmiss
    simp at hmiss

/-- An insert under an existing key is a no-op returning false. -/
lemma add_to_cache_existing (db : Cache) (t c p : String) (n : Nat) (e : CacheEntry)
    (h : findRow db (hash_task_description t) = some e) :
    add_to_cache db t c p n = (false, db) := by
  unfold findRow at h
  unfold add_to_cache
  rcases hf : db.find? (fun row => row.1 == hash_task_description t) with _ | row
  · rw [hf] at h
    simp at h
  · simp [hf]

/-- A lookup miss returns no-hit and leaves the table untouched. -/
lemma check_cache_miss (db : Cache) (t : String) (n : Nat)
    (h : findRow db (hash_task_description t) = none) :
    check_cache db t n = ((false, none, none), db) := by
  unfold findRow at h
  unfold check_cache
  rcases hf : db.find? (fun row => row.1 == hash_task_description t) with _ | row
  · simp [hf]
  · rw [hf] at h
    simp at h

/-- A lookup hit returns the stored labels, bumps exactly that row's hit
count by one and stamps `last_hit`, and leaves every other key's row as it
was. -/
lemma check_cache_hit (db : Cache) (t : String) (n : Nat) (e : CacheEntry)
    (h : findRow db (hash_task_description t) = some e) :
    (check_cache db t n).1 = (true, some e.predicted_category, some e.predicted_priority) ∧
    findRow (check_cache db t n).2 (hash_task_description t) =
      some { e with cache_hit_count := e.cache_hit_count + 1, last_hit := some n } ∧
    (∀ k, k ≠ hash_task_description t → findRow (check_cache db t n).2 k = findRow db k) := by
  unfold findRow at h
  unfold check_cache
  rcases hf : db.find? (fun row => row.1 == hash_task_description t) with _ | row
  · rw [hf] at h
    simp at h
  · rw [hf] at h
    simp only [Option.map_some'] at h
    have he := Option.some.inj h
    subst he
    have hkey : row.1 = hash_task_description t := by
      have := List.find?_some hf
      simpa using this
    simp only [hf]
    refine ⟨trivial, ?_, ?_⟩
    · unfold findRow
      rw [find?_map_key_preserving db (fun x => x == hash_task_description t) _
        (fun r => by split_ifs <;> rfl)]
      rw [hf]
      simp only [Option.map_some']
      rw [if_pos (by simpa using hkey)]
    · intro k hk
      unfold findRow
      rw [find?_map_key_preserving db (fun x => x == k) _
        (fun r => by split_ifs <;> rfl)]
      rcases hg : db.find? (fun row => row.1 == k) with _ | row2
      · rw [hg]
        rfl
      · rw [hg]
        have hkey2 : row2.1 = k := by
          have := List.find?_some hg
          simpa using this
        simp only [Option.map_some', Function.comp]
        rw [if_neg (by rw [hkey2]; simpa using hk)]

/-! ## Claim theorem for the prediction cache -/

/-- C7: the first insert for a text returns true and creates the entry with
the given labels; any later insert for the same text (any labels) returns
false and leaves the table unchanged; a lookup hit returns the stored
labels, increments exactly that entry's hit count by 1 and sets its
last-hit timestamp while every other key's row is untouched; a lookup miss
returns no-hit and changes nothing. -/
theorem c7_cache_semantics (db : Cache) (t c p c2 p2 : String) (n1 n2 n3 : Nat) :
    (findRow db (hash_task_description t) = none →
      (add_to_cache db t c p n1).1 = true ∧
      findRow (add_to_cache db t c p n1).2 (hash_task_description t) =
        some ⟨t, c, p, 0, none, n1⟩) ∧
    (∀ e, findRow db (hash_task_description t) = some e →
      (add_to_cache db t c2 p2 n2).1 = false ∧ (add_to_cache db t c2 p2 n2).2 = db) ∧
    (∀ e, findRow db (hash_task_description t) = some e →
      (check_cache db t n3).1 = (true, some e.predicted_category, some e.predicted_priority) ∧
      findRow (check_cache db t n3).2 (hash_task_description t) =
        some { e with cache_hit_count := e.cache_hit_count + 1, last_hit := some n3 } ∧
      ∀ k, k ≠ hash_task_description t → findRow (check_cache db t n3).2 k = findRow db k) ∧
    (findRow db (hash_task_description t) = none →
      (check_cache db t n3).1 = (false, none, none) ∧ (check_cache db t n3).2 = db) := by
  refine ⟨fun h => ?_, fun e he => ?_, fun e he => check_cache_hit db t n3 e he, fun h => ?_⟩
  · rw [add_to_cache_fresh db t c p n1 h]
    exact ⟨rfl, findRow_append_fresh db _ _ h⟩
  · rw [add_to_cache_existing db t c2 p2 n2 e he]
    exact ⟨rfl, rfl⟩
  · rw [check_cache_miss db t n3 h]
    exact ⟨rfl, rfl⟩

/-- C7 witness: fresh insert into the empty table succeeds, and the
subsequent lookup hit returns the stored labels. -/
theorem c7_witness :
    (add_to_cache [] "Mop floor" "Production" "Low" 5).1 = true ∧
    (check_cache (add_to_cache [] "Mop floor" "Production" "Low" 5).2 "Mop floor" 9).1 =
      (true, some "Production", some "Low") :=
  ⟨((c7_cache_semantics [] "Mop floor" "Production" "Low" "x" "y" 5 0 9).1 (by decide)).1,
   ((c7_cache_semantics (add_to_cache [] "Mop floor" "Production" "Low" 5).2 "Mop floor"
      "a" "b" "c" "d" 0 0 9).2.2.1 ⟨"Mop floor", "Production", "Low", 0, none, 5⟩ (by decide)).1⟩

/-! ## Triage orchestrator (`src/process_and_store_task.py`) -/

/-- The pipeline outputs of `submit_task` that the claims inspect (the
task/prediction/audit rows written to the other tables are external
storage per the spec and carry exactly these values). -/
structure SubmitResult where
  ai_category : String
  ai_priority : String
  final_priority : String
  was_overridden : Bool
  audit_level : String
  due_info : DueInfo
  db : Cache
deriving Repr, DecidableEq

/-- `submit_task` from `process_and_store_task.py`, parametrised by the two
external ML models (text categorisation, and priority prediction from the
extracted feature vector): check the cache; on a hit feed the cached labels
onward, on a miss classify, predict, and insert the AI labels into the
cache; then apply the safety rules on every submission and compute the
shift-aware due date from the final priority. -/
def submit_task (classify : String → String) (predict : Features → String)
    (db : Cache) (task_description : String) (now : Nat) : SubmitResult :=
  -- Step 1: check cache
  let res := check_cache db task_description now
  let db1 := res.2
  let labels :=
    if res.1.1 then
      ((res.1.2.1).getD "", (res.1.2.2).getD "", db1)
    else
      -- Steps 2-3: categorize, predict priority, add to cache
      let ai_category := classify task_description
      let features := extract_features task_description ai_category
      let ai_priority := predict features
      let ins := add_to_cache db1 task_description ai_category ai_priority now
      (ai_category, ai_priority, ins.2)
  let ai_category := labels.1
  let ai_priority := labels.2.1
  let db2 := labels.2.2
  -- Step 4: apply safety rules
  let safety_result := apply_safety_rules task_description ai_category ai_priority
  let final_priority := safety_result.final_priority
  -- Step 5: calculate due date
  let due_info := calculate_due_date_shift_aware final_priority ai_category now true
  { ai_category := ai_category
    ai_priority := ai_priority
    final_priority := final_priority
    was_overridden := safety_result.was_overridden
    audit_level := safety_result.audit_level
    due_info := due_info
    db := db2 }

/-- C10: the cache always holds the pre-override AI priority, never the
safety-final one. The final priority is the safety-rule evaluation of the
(cached or freshly predicted) AI labels on every submission, hit or miss;
on a miss the row inserted (before the safety rules run) carries the
classifier category and predicted priority; on a hit the stored entry keeps
its original labels — only the hit count and last-hit timestamp change. -/
theorem c10_cache_stores_preoverride_priority (classify : String → String)
    (predict : Features → String) (db : Cache) (t : String) (now : Nat) :
    (submit_task classify predict db t now).final_priority =
      (apply_safety_rules t (submit_task classify predict db t now).ai_category
        (submit_task classify predict db t now).ai_priority).final_priority ∧
    (findRow db (hash_task_description t) = none →
      (submit_task classify predict db t now).ai_priority =
        predict (extract_features t (classify t)) ∧
      findRow (submit_task classify predict db t now).db (hash_task_description t) =
        some ⟨t, classify t, predict (extract_features t (classify t)), 0, none, now⟩) ∧
    (∀ e, findRow db (hash_task_description t) = some e →
      (submit_task classify predict db t now).ai_priority = e.predicted_priority ∧
      findRow (submit_task classify predict db t now).db (hash_task_description t) =
        some { e with cache_hit_count := e.cache_hit_count + 1, last_hit := some now }) := by
  by_cases hmiss : findRow db (hash_task_description t) = none
  · have hc := check_cache_miss db t now hmiss
    have ha := add_to_cache_fresh db t (classify t)
      (predict (extract_features t (classify t))) now hmiss
    refine ⟨?_, fun _ => ?_, fun e he => absurd he (by rw [hmiss]; simp)⟩
    · unfold submit_task
      rw [hc]
    · unfold submit_task
      rw [hc]
      dsimp only
      rw [if_neg (by simp)]
      dsimp only
      rw [ha]
      exact ⟨rfl, findRow_append_fresh db _ _ hmiss⟩
  · rcases hsome : findRow db (hash_task_description t) with _ | e
    · exact absurd hsome hmiss
    · obtain ⟨h1, h2, h3⟩ := check_cache_hit db t now e hsome
      refine ⟨?_, fun hn => absurd hn (by simp), fun e2 he2 => ?_⟩
      · unfold submit_task
        rfl
      · have hee : e2 = e := (Option.some.inj he2).symm
        subst hee
        unfold submit_task
        rw [show check_cache db t now =
          ((true, some e2.predicted_category, some e2.predicted_priority),
            (check_cache db t now).2) from ?_]
        · dsimp only
          rw [if_pos rfl]
          dsimp only
          exact ⟨rfl, h2⟩
        · rcases hcc : check_cache db t now with ⟨fst, snd⟩
          rw [hcc] at h1
          simp only at h1
          rw [h1]

/-- C10 witness: a miss inserts the pre-override labels; with a classifier
answering Quality Control and a predictor answering Low, the cache row
stores Low even though the safety rules will raise the final priority. -/
theorem c10_witness :
    (submit_task (fun _ => "Quality Control") (fun _ => "Low") [] "Mold found" 7).ai_priority =
      "Low" ∧
    findRow (submit_task (fun _ => "Quality Control") (fun _ => "Low") [] "Mold found" 7).db
        (hash_task_description "Mold found") =
      some ⟨"Mold found", "Quality Control", "Low", 0, none, 7⟩ :=
  have h := (c10_cache_stores_preoverride_priority (fun _ => "Quality Control")
    (fun _ => "Low") [] "Mold found" 7).2.1 (by decide)
  ⟨h.1, h.2⟩
